import Mathlib

/-!
Verification of the Cruise Control scaling orchestration logic of
pkg/scale (alias.go): broker-state classification, precondition checks,
task submission, and uniform result/status modelling.

Shallow embedding conventions: every remote query result (cluster load,
cluster state, component state) and the outcome of each mutating
submission are explicit inputs of the embedded operations.  A Go error
is modelled as an Option String carrying its rendered description (what
fmt.Sprintf with the v verb would print), so none stands for a nil
error.  Go maps appearing in responses are modelled as association
lists.  Replica counts reported by the remote service are modelled as
Nat (they are counts); numeric broker identifiers are modelled as Int,
with the int32 conversion performed by the source made explicit where
the source performs it.  float64 values that the source only copies
through are modelled as rationals.
-/

namespace Scale

/-- Broker states as classified by Cruise Control (types.BrokerState,
aliased in the source as KafkaBrokerAlive, KafkaBrokerDead,
KafkaBrokerNew, KafkaBrokerDemoted, KafkaBrokerBadDisks). -/
inductive BrokerState
  | alive
  | dead
  | new
  | demoted
  | badDisks
deriving DecidableEq, Repr

/-- Lifecycle states of a submitted task (v1beta1 CruiseControlUserTaskState
values used by the orchestrator paths under verification). -/
inductive CruiseControlTaskState
  | active
  | completed
  | completedWithError
deriving DecidableEq, Repr

/-- Goal readiness status reported by the analyzer; the source only
compares against types.GoalReadinessStatusReady, so all other values
collapse into notReady. -/
inductive GoalReadinessStatus
  | ready
  | notReady
deriving DecidableEq, Repr

/-- Monitor component state; the source only compares against
types.MonitorStateRunning. -/
inductive MonitorStateValue
  | running
  | notRunning
deriving DecidableEq, Repr

/-- Executor component state; the source only compares against
types.ExecutorStateTypeNoTaskInProgress. -/
inductive ExecutorStateValue
  | noTaskInProgress
  | taskInProgress
deriving DecidableEq, Repr

/-- Log directory states (LogDirStateOnline / LogDirStateOffline). -/
inductive LogDirState
  | online
  | offline
deriving DecidableEq, Repr

/-- Proposal data source selector (the source always passes
types.ProposalDataSourceValidWindows). -/
inductive ProposalDataSource
  | validWindows
  | validPartitions
deriving DecidableEq, Repr

/-- Common shape of a submission response: task ID and submission date
(AddBrokerResponse, RemoveBrokerResponse, RebalanceResponse all expose
TaskID and Date).  A zero-valued response has both fields empty. -/
structure CCResponse where
  taskID : String
  date : String
deriving DecidableEq, Repr

/-- Modelled from the spec: the TaskResult type (named Result in the
repository, declared outside src/): task identifier, start timestamp,
lifecycle state and optional error description.  The Go zero value of
the string fields is the empty string. -/
structure Result where
  taskID : String
  startedAt : String
  state : CruiseControlTaskState
  err : String
deriving DecidableEq, Repr

/-- The pair a Go operation returns: an optional Result pointer and an
optional error (modelled by its rendered description). -/
structure OpReturn where
  res : Option Result
  err : Option String
deriving DecidableEq, Repr

/-- Dead/alive flag of a disk (diskState.DiskMB.Dead). -/
structure DiskMBInfo where
  dead : Bool
deriving DecidableEq, Repr

/-- Per-disk statistics of a broker in the cluster-load response. -/
structure DiskStateInfo where
  numReplicas : Nat
  diskMB : DiskMBInfo
deriving DecidableEq, Repr

/-- Per-broker entry of the cluster-load response: numeric broker ID,
classified broker state, and the disk entries (the Go map of disk
states is modelled as the list of its values, which is all the source
iterates over). -/
structure BrokerStat where
  broker : Int
  brokerState : BrokerState
  diskState : List DiskStateInfo
deriving DecidableEq, Repr

/-- Result payload of the KafkaClusterLoad query. -/
structure ClusterLoadResult where
  brokers : List BrokerStat
deriving DecidableEq, Repr

/-- One entry of the analyzer goal-readiness list. -/
structure GoalReadinessItem where
  status : GoalReadinessStatus
deriving DecidableEq, Repr

/-- Analyzer state in the State query response. -/
structure AnalyzerStateInfo where
  isProposalReady : Bool
  goalReadiness : List GoalReadinessItem
deriving DecidableEq, Repr

/-- Monitor state in the State query response. -/
structure MonitorStateInfo where
  state : MonitorStateValue
  numMonitoredWindows : Int
  monitoringCoveragePercentage : Rat
deriving DecidableEq, Repr

/-- Executor state in the State query response. -/
structure ExecutorStateInfo where
  state : ExecutorStateValue
deriving DecidableEq, Repr

/-- Result payload of the State query. -/
structure StateResult where
  monitorState : MonitorStateInfo
  executorState : ExecutorStateInfo
  analyzerState : AnalyzerStateInfo
deriving DecidableEq, Repr

/-- KafkaBrokerState section of the KafkaClusterState query response.
The three Go maps are modelled as association lists. -/
structure KafkaBrokerStateInfo where
  replicaCountByBrokerID : List (String × Nat)
  onlineLogDirsByBrokerID : List (String × List String)
  offlineLogDirsByBrokerID : List (String × List String)
deriving DecidableEq, Repr

/-- Result payload of the KafkaClusterState query. -/
structure ClusterStateResult where
  kafkaBrokerState : KafkaBrokerStateInfo
deriving DecidableEq, Repr

/-- Modelled from the spec: the ClusterStatus snapshot (named
CruiseControlStatus in the repository, declared outside src/), with the
fields the Status method populates.  Its Go zero value has all booleans
false and all numbers zero. -/
structure CruiseControlStatus where
  monitorReady : Bool
  executorReady : Bool
  analyzerReady : Bool
  proposalReady : Bool
  goalsReady : Bool
  monitoredWindows : Int
  monitoringCoverage : Rat
deriving DecidableEq, Repr

/-- Request built by AddBrokers (api.AddBrokerRequest fields the source
sets). -/
structure AddBrokerRequest where
  allowCapacityEstimation : Bool
  brokerIDs : List Int
  dataFrom : ProposalDataSource
  useReadyDefaultGoals : Bool
deriving DecidableEq, Repr

/-- Request built by RemoveBrokers (api.RemoveBrokerRequest fields the
source sets). -/
structure RemoveBrokerRequest where
  allowCapacityEstimation : Bool
  brokerIDs : List Int
  dataFrom : ProposalDataSource
  useReadyDefaultGoals : Bool
deriving DecidableEq, Repr

/-- Request built by RebalanceDisks (api.RebalanceRequest fields the
source sets). -/
structure RebalanceRequest where
  allowCapacityEstimation : Bool
  destinationBrokerIDs : List Int
  dataFrom : ProposalDataSource
  useReadyDefaultGoals : Bool
  excludeRecentlyRemovedBrokers : Bool
deriving DecidableEq, Repr

/-- Association list lookup, modelling Go map indexing. -/
def mapLookup {A : Type} : List (String × A) → String → Option A
  | [], _ => none
  | (k, v) :: rest, key => if k = key then some v else mapLookup rest key

/-- Association list insert-or-replace, modelling Go map assignment. -/
def mapInsert {A : Type} : List (String × A) → String → A → List (String × A)
  | [], key, val => [(key, val)]
  | (k, v) :: rest, key, val =>
    if k = key then (key, val) :: rest else (k, v) :: mapInsert rest key val

/-- Accumulate the decimal digits of a character list, failing on the
first non-digit character. -/
def digitsToNatAux : List Char → Nat → Option Nat
  | [], acc => some acc
  | c :: rest, acc =>
    if c.isDigit then digitsToNatAux rest (acc * 10 + (c.toNat - 48)) else none

/-- The strconv.Atoi conversion used by the source: an optional sign
followed by at least one ASCII digit, with the 64-bit platform int
range check (out-of-range input is an error, ErrRange). -/
def goAtoi (s : String) : Except String Int :=
  let stripped : Bool × List Char :=
    match s.data with
    | '-' :: rest => (true, rest)
    | '+' :: rest => (false, rest)
    | cs => (false, cs)
  match stripped.2 with
  | [] => Except.error ("strconv.Atoi: parsing " ++ s ++ ": invalid syntax")
  | body =>
    match digitsToNatAux body 0 with
    | none => Except.error ("strconv.Atoi: parsing " ++ s ++ ": invalid syntax")
    | some n =>
      let v : Int := if stripped.1 then -(n : Int) else (n : Int)
      if v < -(2 ^ 63) ∨ 2 ^ 63 ≤ v then
        Except.error ("strconv.Atoi: parsing " ++ s ++ ": value out of range")
      else Except.ok v

/-- The Go conversion int32(v): reduction into two-complement 32-bit
range. -/
def toInt32 (v : Int) : Int :=
  let m := v.emod (2 ^ 32)
  if m < 2 ^ 31 then m else m - 2 ^ 32

/-- Modelled from the spec: the helper brokerIDsFromStringSlice of
pkg/scale (declared outside src/) converts the string-typed broker IDs
into the numeric handles required by the remote request schema, failing
hard on the first invalid (non-numeric) ID. -/
def brokerIDsFromStringSlice : List String → Except String (List Int)
  | [] => Except.ok []
  | id :: rest =>
    match goAtoi id with
    | Except.error e => Except.error e
    | Except.ok v =>
      match brokerIDsFromStringSlice rest with
      | Except.error e => Except.error e
      | Except.ok l => Except.ok (toInt32 v :: l)

/-- Modelled from the spec: the helper kafkaBrokerStatesToMap of
pkg/scale (declared outside src/) builds the O(1) desired-state
membership set; the set is modelled as the list itself with list
membership as the membership test. -/
def kafkaBrokerStatesToMap (states : List BrokerState) : List BrokerState :=
  states

/-- The collection loop of BrokersWithState: keep, in order, the decimal
rendering of the ID of every broker whose state is in the desired set. -/
def collectBrokersWithState (statesMap : List BrokerState) :
    List BrokerStat → List String
  | [] => []
  | b :: rest =>
    if b.brokerState ∈ statesMap then
      toString b.broker :: collectBrokersWithState statesMap rest
    else collectBrokersWithState statesMap rest

/-- BrokersWithState: lists the IDs of brokers from a fresh cluster-load
snapshot whose state is one of the expected states. -/
def brokersWithState (load : Except String ClusterLoadResult)
    (states : List BrokerState) : Except String (List String) :=
  match load with
  | Except.error e => Except.error e
  | Except.ok resp =>
    let statesMap := kafkaBrokerStatesToMap states
    Except.ok (collectBrokersWithState statesMap resp.brokers)

/-- Error message of AddBrokers on an empty input list. -/
def addEmptyMsg : String := "no broker id(s) provided for add brokers request"

/-- Error message of AddBrokers when some requested broker is not
available (the offending IDs are only logged, not part of the error). -/
def addUnavailableMsg : String :=
  "not all brokers are available which are meant to be added to the Kafka cluster"

/-- Error message of RemoveBrokers on an empty input list. -/
def removeEmptyMsg : String := "no broker id(s) provided for remove brokers request"

/-- The broker states AddBrokers treats as available:
KafkaBrokerAlive and KafkaBrokerNew. -/
def addableStates : List BrokerState := [BrokerState.alive, BrokerState.new]

/-- AddBrokers: reject empty input, convert the IDs, query the brokers
in an addable state, reject the whole operation when any requested ID is
unavailable, otherwise submit one add-broker request and normalise the
submission outcome into a Result. -/
def addBrokers (load : Except String ClusterLoadResult)
    (submit : CCResponse × Option String)
    (brokerIDs : List String) : OpReturn × Option AddBrokerRequest :=
  if brokerIDs.length = 0 then
    ({ res := none, err := some addEmptyMsg }, none)
  else
    match brokerIDsFromStringSlice brokerIDs with
    | Except.error e => ({ res := none, err := some e }, none)
    | Except.ok brokersToAdd =>
      match brokersWithState load addableStates with
      | Except.error e => ({ res := none, err := some e }, none)
      | Except.ok availableBrokers =>
        let unavailableBrokerIDs :=
          brokerIDs.filter (fun id => decide (id ∉ availableBrokers))
        if 0 < unavailableBrokerIDs.length then
          ({ res := none, err := some addUnavailableMsg }, none)
        else
          let req : AddBrokerRequest :=
            { allowCapacityEstimation := true
              brokerIDs := brokersToAdd
              dataFrom := ProposalDataSource.validWindows
              useReadyDefaultGoals := true }
          match submit.2 with
          | some e =>
            ({ res := some { taskID := submit.1.taskID
                             startedAt := submit.1.date
                             state := CruiseControlTaskState.completedWithError
                             err := e }
               err := some e }, some req)
          | none =>
            ({ res := some { taskID := submit.1.taskID
                             startedAt := submit.1.date
                             state := CruiseControlTaskState.active
                             err := "" }
               err := none }, some req)

/-- The filtering loop of RemoveBrokers: skip brokers that are absent
from the replica-count map or report no replicas, convert the remaining
IDs with strconv.Atoi (aborting the whole operation on a conversion
error) and collect their int32 handles in input order. -/
def removeBrokersLoop (brokerStates : List (String × Nat)) :
    List String → Except String (List Int)
  | [] => Except.ok []
  | brokerID :: rest =>
    match mapLookup brokerStates brokerID with
    | none => removeBrokersLoop brokerStates rest
    | some replicas =>
      if replicas ≤ 0 then removeBrokersLoop brokerStates rest
      else
        match goAtoi brokerID with
        | Except.error e => Except.error e
        | Except.ok v =>
          match removeBrokersLoop brokerStates rest with
          | Except.error e => Except.error e
          | Except.ok l => Except.ok (toInt32 v :: l)

/-- RemoveBrokers: reject empty input, fetch the cluster state, filter
the requested brokers by replica occupancy, short-circuit to Completed
when no broker is eligible, otherwise submit one remove-broker request
and normalise the submission outcome into a Result. -/
def removeBrokers (clusterState : Except String ClusterStateResult)
    (submit : CCResponse × Option String)
    (brokerIDs : List String) : OpReturn × Option RemoveBrokerRequest :=
  if brokerIDs.length = 0 then
    ({ res := none, err := some removeEmptyMsg }, none)
  else
    match clusterState with
    | Except.error e => ({ res := none, err := some e }, none)
    | Except.ok resp =>
      match removeBrokersLoop resp.kafkaBrokerState.replicaCountByBrokerID brokerIDs with
      | Except.error e => ({ res := none, err := some e }, none)
      | Except.ok brokersToRemove =>
        if brokersToRemove.length = 0 then
          ({ res := some { taskID := ""
                           startedAt := ""
                           state := CruiseControlTaskState.completed
                           err := "" }
             err := none }, none)
        else
          let req : RemoveBrokerRequest :=
            { allowCapacityEstimation := true
              brokerIDs := brokersToRemove
              dataFrom := ProposalDataSource.validWindows
              useReadyDefaultGoals := true }
          match submit.2 with
          | some e =>
            ({ res := some { taskID := submit.1.taskID
                             startedAt := submit.1.date
                             state := CruiseControlTaskState.completedWithError
                             err := e }
               err := some e }, some req)
          | none =>
            ({ res := some { taskID := submit.1.taskID
                             startedAt := submit.1.date
                             state := CruiseControlTaskState.active
                             err := "" }
               err := none }, some req)

/-- The inner disk loop of RebalanceDisks: one copy of the broker ID per
disk that holds no replicas and is not marked dead. -/
def qualifyingDiskIDs (b : Int) : List DiskStateInfo → List Int
  | [] => []
  | d :: rest =>
    if d.numReplicas ≤ 0 ∧ !d.diskMB.dead then
      b :: qualifyingDiskIDs b rest
    else qualifyingDiskIDs b rest

/-- The outer loop of RebalanceDisks: walk the cluster-load brokers,
keep only the requested ones (matching the decimal rendering of the
numeric ID against the requested set), and append one copy of the
broker ID per qualifying disk. -/
def emptyDiskCollect (requested : List String) : List BrokerStat → List Int
  | [] => []
  | bs :: rest =>
    if toString bs.broker ∈ requested then
      qualifyingDiskIDs bs.broker bs.diskState ++ emptyDiskCollect requested rest
    else emptyDiskCollect requested rest

/-- RebalanceDisks: fetch the cluster load, find the brokers with empty
non-dead disks among the requested ones, short-circuit to Completed when
there are none, otherwise submit one rebalance request (with the
exclude-recently-removed-brokers flag set) and normalise the submission
outcome into a Result. -/
def rebalanceDisks (load : Except String ClusterLoadResult)
    (submit : CCResponse × Option String)
    (brokerIDs : List String) : OpReturn × Option RebalanceRequest :=
  match load with
  | Except.error e => ({ res := none, err := some e }, none)
  | Except.ok resp =>
    let brokersWithEmptyDisks := emptyDiskCollect brokerIDs resp.brokers
    if brokersWithEmptyDisks.length = 0 then
      ({ res := some { taskID := ""
                       startedAt := ""
                       state := CruiseControlTaskState.completed
                       err := "" }
         err := none }, none)
    else
      let req : RebalanceRequest :=
        { allowCapacityEstimation := true
          destinationBrokerIDs := brokersWithEmptyDisks
          dataFrom := ProposalDataSource.validWindows
          useReadyDefaultGoals := true
          excludeRecentlyRemovedBrokers := true }
      match submit.2 with
      | some e =>
        ({ res := some { taskID := submit.1.taskID
                         startedAt := submit.1.date
                         state := CruiseControlTaskState.completedWithError
                         err := e }
           err := some e }, some req)
      | none =>
        ({ res := some { taskID := submit.1.taskID
                         startedAt := submit.1.date
                         state := CruiseControlTaskState.active
                         err := "" }
           err := none }, some req)

/-- The goal-readiness loop of Status: starts from true and flips to
false at the first goal whose status is not ready (the break of the Go
loop). -/
def allGoalsReady : List GoalReadinessItem → Bool
  | [] => true
  | g :: rest =>
    if g.status = GoalReadinessStatus.ready then allGoalsReady rest else false

/-- Status: on a failed state query return the zero-valued status
without an error channel; otherwise compute the readiness booleans and
copy the monitoring numbers. -/
def statusOp (q : Except String StateResult) : CruiseControlStatus :=
  match q with
  | Except.error _ =>
    { monitorReady := false
      executorReady := false
      analyzerReady := false
      proposalReady := false
      goalsReady := false
      monitoredWindows := 0
      monitoringCoverage := 0 }
  | Except.ok r =>
    let goalsReady :=
      if 0 < r.analyzerState.goalReadiness.length then
        allGoalsReady r.analyzerState.goalReadiness
      else true
    { monitorReady := decide (r.monitorState.state = MonitorStateValue.running)
      executorReady := decide (r.executorState.state = ExecutorStateValue.noTaskInProgress)
      analyzerReady := r.analyzerState.isProposalReady && goalsReady
      proposalReady := r.analyzerState.isProposalReady
      goalsReady := goalsReady
      monitoredWindows := r.monitorState.numMonitoredWindows
      monitoringCoverage := r.monitorState.monitoringCoveragePercentage }

/-- The two log-directory buckets of one broker; newLogDirsByBroker in
the source initialises both keys of the Go map with empty slices, which
this structure models with its two fields. -/
structure LogDirBuckets where
  online : List String
  offline : List String
deriving DecidableEq, Repr

/-- The initial value produced by newLogDirsByBroker: both buckets
empty. -/
def emptyBuckets : LogDirBuckets := { online := [], offline := [] }

/-- One iteration of the first loop of LogDirsByBroker: fetch or
initialise the buckets of the broker, set its online bucket, store. -/
def setOnlineDirs (m : List (String × LogDirBuckets)) (broker : String)
    (dirs : List String) : List (String × LogDirBuckets) :=
  let cur := (mapLookup m broker).getD emptyBuckets
  mapInsert m broker { cur with online := dirs }

/-- One iteration of the second loop of LogDirsByBroker: fetch or
initialise the buckets of the broker, set its offline bucket, store. -/
def setOfflineDirs (m : List (String × LogDirBuckets)) (broker : String)
    (dirs : List String) : List (String × LogDirBuckets) :=
  let cur := (mapLookup m broker).getD emptyBuckets
  mapInsert m broker { cur with offline := dirs }

/-- The two loops of LogDirsByBroker over the online and the offline
report. -/
def buildLogDirs (onl ofl : List (String × List String)) :
    List (String × LogDirBuckets) :=
  let step1 := onl.foldl (fun m p => setOnlineDirs m p.1 p.2) []
  ofl.foldl (fun m p => setOfflineDirs m p.1 p.2) step1

/-- LogDirsByBroker: fetch the cluster state and group, per broker, the
log directory paths into an online and an offline bucket. -/
def logDirsByBroker (clusterState : Except String ClusterStateResult) :
    Except String (List (String × LogDirBuckets)) :=
  match clusterState with
  | Except.error e => Except.error e
  | Except.ok resp =>
    Except.ok (buildLogDirs resp.kafkaBrokerState.onlineLogDirsByBrokerID
      resp.kafkaBrokerState.offlineLogDirsByBrokerID)

/-- Substring test on character lists, used to state whether an error
message names a broker ID. -/
def hasSubstring (needle : List Char) : List Char → Bool
  | [] => needle.isEmpty
  | c :: rest => needle.isPrefixOf (c :: rest) || hasSubstring needle rest

/-! ## Helper lemmas -/

theorem allGoalsReady_eq_all (l : List GoalReadinessItem) :
    allGoalsReady l = l.all (fun g => decide (g.status = GoalReadinessStatus.ready)) := by
  induction l with
  | nil => rfl
  | cons g rest ih =>
    by_cases h : g.status = GoalReadinessStatus.ready <;>
      simp [allGoalsReady, h, ih]

theorem statusOp_ok_goalsReady (r : StateResult) :
    (statusOp (Except.ok r)).goalsReady = allGoalsReady r.analyzerState.goalReadiness := by
  cases hl : r.analyzerState.goalReadiness with
  | nil => simp [statusOp, hl, allGoalsReady]
  | cons g rest => simp [statusOp, hl]

theorem collectBrokersWithState_eq (s : List BrokerState) (l : List BrokerStat) :
    collectBrokersWithState s l =
      (l.filter (fun b => decide (b.brokerState ∈ s))).map (fun b => toString b.broker) := by
  induction l with
  | nil => rfl
  | cons b rest ih =>
    by_cases h : b.brokerState ∈ s <;>
      simp [collectBrokersWithState, h, ih]

/-- Branch analysis of AddBrokers: either the operation fails before any
submission (no Result, an error, no request), or a request was submitted
and the Result is built from the submission response and the submission
error. -/
theorem addBrokers_shape (load : Except String ClusterLoadResult)
    (submit : CCResponse × Option String) (brokerIDs : List String) :
    ((addBrokers load submit brokerIDs).1.res = none ∧
      (addBrokers load submit brokerIDs).2 = none ∧
      (∃ e, (addBrokers load submit brokerIDs).1.err = some e))
    ∨ (∃ req e, submit.2 = some e ∧
        addBrokers load submit brokerIDs =
          ({ res := some { taskID := submit.1.taskID
                           startedAt := submit.1.date
                           state := CruiseControlTaskState.completedWithError
                           err := e }
             err := some e }, some req))
    ∨ (∃ req, submit.2 = none ∧
        addBrokers load submit brokerIDs =
          ({ res := some { taskID := submit.1.taskID
                           startedAt := submit.1.date
                           state := CruiseControlTaskState.active
                           err := "" }
             err := none }, some req)) := by
  simp only [addBrokers]
  by_cases hlen : brokerIDs.length = 0
  · simp only [if_pos hlen]
    exact Or.inl (by simp)
  · simp only [if_neg hlen]
    rcases hconv : brokerIDsFromStringSlice brokerIDs with e | conv
    · simp only [hconv]
      exact Or.inl (by simp)
    · simp only [hconv]
      rcases havail : brokersWithState load addableStates with e | avail
      · simp only [havail]
        exact Or.inl (by simp)
      · simp only [havail]
        by_cases hun : 0 < (brokerIDs.filter (fun id => decide (id ∉ avail))).length
        · simp only [if_pos hun]
          exact Or.inl (by simp)
        · simp only [if_neg hun]
          rcases hsub : submit.2 with _ | e
          · simp only [hsub]
            exact Or.inr (Or.inr ⟨_, trivial, rfl⟩)
          · simp only [hsub]
            exact Or.inr (Or.inl ⟨_, e, rfl, rfl⟩)

/-- Branch analysis of RemoveBrokers: a pre-submission failure, the
local Completed short-circuit, or a submitted request with the Result
built from the submission response and the submission error. -/
theorem removeBrokers_shape (clusterState : Except String ClusterStateResult)
    (submit : CCResponse × Option String) (brokerIDs : List String) :
    ((removeBrokers clusterState submit brokerIDs).1.res = none ∧
      (removeBrokers clusterState submit brokerIDs).2 = none ∧
      (∃ e, (removeBrokers clusterState submit brokerIDs).1.err = some e))
    ∨ (removeBrokers clusterState submit brokerIDs =
        ({ res := some { taskID := ""
                         startedAt := ""
                         state := CruiseControlTaskState.completed
                         err := "" }
           err := none }, none))
    ∨ (∃ req e, submit.2 = some e ∧
        removeBrokers clusterState submit brokerIDs =
          ({ res := some { taskID := submit.1.taskID
                           startedAt := submit.1.date
                           state := CruiseControlTaskState.completedWithError
                           err := e }
             err := some e }, some req))
    ∨ (∃ req, submit.2 = none ∧
        removeBrokers clusterState submit brokerIDs =
          ({ res := some { taskID := submit.1.taskID
                           startedAt := submit.1.date
                           state := CruiseControlTaskState.active
                           err := "" }
             err := none }, some req)) := by
  simp only [removeBrokers]
  by_cases hlen : brokerIDs.length = 0
  · simp only [if_pos hlen]
    exact Or.inl (by simp)
  · simp only [if_neg hlen]
    rcases hcs : clusterState with e | resp
    · exact Or.inl (by simp)
    · rcases hloop : removeBrokersLoop resp.kafkaBrokerState.replicaCountByBrokerID brokerIDs with e | lst
      · simp only [hloop]
        exact Or.inl (by simp)
      · simp only [hloop]
        by_cases hz : lst.length = 0
        · simp only [if_pos hz]
          exact Or.inr (Or.inl trivial)
        · simp only [if_neg hz]
          rcases hsub : submit.2 with _ | e
          · simp only [hsub]
            exact Or.inr (Or.inr (Or.inr ⟨_, trivial, rfl⟩))
          · simp only [hsub]
            exact Or.inr (Or.inr (Or.inl ⟨_, e, rfl, rfl⟩))

/-- Branch analysis of RebalanceDisks: a failed load query, the local
Completed short-circuit, or a submitted request with the Result built
from the submission response and the submission error. -/
theorem rebalanceDisks_shape (load : Except String ClusterLoadResult)
    (submit : CCResponse × Option String) (brokerIDs : List String) :
    ((rebalanceDisks load submit brokerIDs).1.res = none ∧
      (rebalanceDisks load submit brokerIDs).2 = none ∧
      (∃ e, (rebalanceDisks load submit brokerIDs).1.err = some e))
    ∨ (rebalanceDisks load submit brokerIDs =
        ({ res := some { taskID := ""
                         startedAt := ""
                         state := CruiseControlTaskState.completed
                         err := "" }
           err := none }, none))
    ∨ (∃ req e, submit.2 = some e ∧
        rebalanceDisks load submit brokerIDs =
          ({ res := some { taskID := submit.1.taskID
                           startedAt := submit.1.date
                           state := CruiseControlTaskState.completedWithError
                           err := e }
             err := some e }, some req))
    ∨ (∃ req, submit.2 = none ∧
        rebalanceDisks load submit brokerIDs =
          ({ res := some { taskID := submit.1.taskID
                           startedAt := submit.1.date
                           state := CruiseControlTaskState.active
                           err := "" }
             err := none }, some req)) := by
  simp only [rebalanceDisks]
  rcases hld : load with e | resp
  · exact Or.inl (by simp)
  · by_cases hz : (emptyDiskCollect brokerIDs resp.brokers).length = 0
    · simp only [if_pos hz]
      exact Or.inr (Or.inl trivial)
    · simp only [if_neg hz]
      rcases hsub : submit.2 with _ | e
      · simp only [hsub]
        exact Or.inr (Or.inr (Or.inr ⟨_, trivial, rfl⟩))
      · simp only [hsub]
        exact Or.inr (Or.inr (Or.inl ⟨_, e, rfl, rfl⟩))

/-- RemoveBrokers short-circuits to a Completed Result with no task
identifier and no submission when the eligible set is empty. -/
theorem removeBrokers_skip (resp : ClusterStateResult)
    (submit : CCResponse × Option String) (brokerIDs : List String)
    (hlen : brokerIDs.length ≠ 0)
    (hloop : removeBrokersLoop resp.kafkaBrokerState.replicaCountByBrokerID brokerIDs =
      Except.ok []) :
    removeBrokers (Except.ok resp) submit brokerIDs =
      ({ res := some { taskID := ""
                       startedAt := ""
                       state := CruiseControlTaskState.completed
                       err := "" }
         err := none }, none) := by
  have hne : brokerIDs ≠ [] := fun h => hlen (by simp [h])
  simp [removeBrokers, hne, hloop]

/-- RebalanceDisks short-circuits to a Completed Result with no task
identifier and no submission when no requested broker has an empty
non-dead disk. -/
theorem rebalanceDisks_skip (resp : ClusterLoadResult)
    (submit : CCResponse × Option String) (brokerIDs : List String)
    (hcol : emptyDiskCollect brokerIDs resp.brokers = []) :
    rebalanceDisks (Except.ok resp) submit brokerIDs =
      ({ res := some { taskID := ""
                       startedAt := ""
                       state := CruiseControlTaskState.completed
                       err := "" }
         err := none }, none) := by
  simp [rebalanceDisks, hcol]

/-! ## Claim theorems: status reporting -/

/-- C4: Status computes GoalsReady as true exactly when every goal in
the goal-readiness list reports ready status, an empty list yielding
true vacuously; any goal reporting not-ready makes GoalsReady false; and
AnalyzerReady is proposal-readiness AND GoalsReady, so a not-ready goal
makes AnalyzerReady false regardless of proposal-readiness. -/
theorem c4_goals_ready :
    (∀ r : StateResult, (statusOp (Except.ok r)).goalsReady =
        r.analyzerState.goalReadiness.all
          (fun g => decide (g.status = GoalReadinessStatus.ready)))
    ∧ (∀ r : StateResult, r.analyzerState.goalReadiness = [] →
        (statusOp (Except.ok r)).goalsReady = true)
    ∧ (∀ r : StateResult, ∀ g ∈ r.analyzerState.goalReadiness,
        g.status = GoalReadinessStatus.notReady →
        (statusOp (Except.ok r)).goalsReady = false ∧
        (statusOp (Except.ok r)).analyzerReady = false)
    ∧ (∀ r : StateResult, (statusOp (Except.ok r)).analyzerReady =
        (r.analyzerState.isProposalReady && (statusOp (Except.ok r)).goalsReady)) := by
  have hgr : ∀ r : StateResult, (statusOp (Except.ok r)).goalsReady =
      r.analyzerState.goalReadiness.all
        (fun g => decide (g.status = GoalReadinessStatus.ready)) := by
    intro r
    rw [statusOp_ok_goalsReady, allGoalsReady_eq_all]
  have han : ∀ r : StateResult, (statusOp (Except.ok r)).analyzerReady =
      (r.analyzerState.isProposalReady && (statusOp (Except.ok r)).goalsReady) := by
    intro r
    rfl
  refine ⟨hgr, ?_, ?_, han⟩
  · intro r hnil
    rw [hgr, hnil]
    rfl
  · intro r g hg hns
    have hfalse : (statusOp (Except.ok r)).goalsReady = false := by
      rw [hgr]
      refine Bool.eq_false_iff.mpr ?_
      intro hall
      rw [List.all_eq_true] at hall
      have := hall g hg
      rw [hns] at this
      simp at this
    refine ⟨hfalse, ?_⟩
    rw [han, hfalse]
    simp

/-- C4 witness: with one goal reporting not-ready and the proposal
ready, GoalsReady and AnalyzerReady evaluate to false. -/
theorem c4_goals_ready_witness :
    (statusOp (Except.ok
      { monitorState := { state := MonitorStateValue.running
                          numMonitoredWindows := 5
                          monitoringCoveragePercentage := 90 }
        executorState := { state := ExecutorStateValue.noTaskInProgress }
        analyzerState := { isProposalReady := true
                           goalReadiness := [{ status := GoalReadinessStatus.notReady }] } })).goalsReady
      = false ∧
    (statusOp (Except.ok
      { monitorState := { state := MonitorStateValue.running
                          numMonitoredWindows := 5
                          monitoringCoveragePercentage := 90 }
        executorState := { state := ExecutorStateValue.noTaskInProgress }
        analyzerState := { isProposalReady := true
                           goalReadiness := [{ status := GoalReadinessStatus.notReady }] } })).analyzerReady
      = false :=
  c4_goals_ready.2.2.1
    { monitorState := { state := MonitorStateValue.running
                        numMonitoredWindows := 5
                        monitoringCoveragePercentage := 90 }
      executorState := { state := ExecutorStateValue.noTaskInProgress }
      analyzerState := { isProposalReady := true
                         goalReadiness := [{ status := GoalReadinessStatus.notReady }] } }
    { status := GoalReadinessStatus.notReady } (by simp) rfl

/-- C7: BrokersWithState returns exactly the brokers of the load
snapshot whose reported state is among the desired states (their IDs
rendered in decimal, in order), and an empty desired-state set yields an
empty result, not all brokers. -/
theorem c7_brokers_with_state :
    (∀ (resp : ClusterLoadResult) (states : List BrokerState),
      brokersWithState (Except.ok resp) states =
        Except.ok ((resp.brokers.filter (fun b => decide (b.brokerState ∈ states))).map
          (fun b => toString b.broker)))
    ∧ (∀ resp : ClusterLoadResult, brokersWithState (Except.ok resp) [] = Except.ok []) := by
  have h : ∀ (resp : ClusterLoadResult) (states : List BrokerState),
      brokersWithState (Except.ok resp) states =
        Except.ok ((resp.brokers.filter (fun b => decide (b.brokerState ∈ states))).map
          (fun b => toString b.broker)) := by
    intro resp states
    simp [brokersWithState, kafkaBrokerStatesToMap, collectBrokersWithState_eq]
  refine ⟨h, ?_⟩
  intro resp
  rw [h]
  simp

/-- C8: when the underlying state query fails, Status returns the
zero-valued status snapshot (all readiness fields false, all counts
zero); the operation has no error channel, so no error reaches the
caller. -/
theorem c8_status_degrades (e : String) :
    statusOp (Except.error e) =
      { monitorReady := false
        executorReady := false
        analyzerReady := false
        proposalReady := false
        goalsReady := false
        monitoredWindows := 0
        monitoringCoverage := 0 } := rfl

/-! ## Claim theorems: task-result lifecycle and submissions -/

/-- C1 (amended): for AddBrokers, RemoveBrokers and RebalanceDisks, a
returned TaskResult is in state Active only when a request was submitted
and the submission returned no error (and then no error is returned to
the caller); a submission error yields a TaskResult in state
CompletedWithError whose error description equals the rendered error
(hence non-empty exactly when the error renders non-empty; the original
claim of an always non-empty description fails for an error rendering
empty, see the counterexample); and an operation skipped locally because
no eligible brokers exist (remove and rebalance paths) yields a
TaskResult in state Completed with an empty task identifier and no
submission. -/
theorem c1_task_result_lifecycle :
    (∀ load submit brokerIDs r, (addBrokers load submit brokerIDs).1.res = some r →
      r.state = CruiseControlTaskState.active →
      submit.2 = none ∧ (addBrokers load submit brokerIDs).1.err = none ∧
        (addBrokers load submit brokerIDs).2.isSome = true)
    ∧ (∀ cs submit brokerIDs r, (removeBrokers cs submit brokerIDs).1.res = some r →
      r.state = CruiseControlTaskState.active →
      submit.2 = none ∧ (removeBrokers cs submit brokerIDs).1.err = none ∧
        (removeBrokers cs submit brokerIDs).2.isSome = true)
    ∧ (∀ load submit brokerIDs r, (rebalanceDisks load submit brokerIDs).1.res = some r →
      r.state = CruiseControlTaskState.active →
      submit.2 = none ∧ (rebalanceDisks load submit brokerIDs).1.err = none ∧
        (rebalanceDisks load submit brokerIDs).2.isSome = true)
    ∧ (∀ load submit brokerIDs (e : String), submit.2 = some e →
      (addBrokers load submit brokerIDs).2.isSome = true →
      (addBrokers load submit brokerIDs).1.res =
        some { taskID := submit.1.taskID
               startedAt := submit.1.date
               state := CruiseControlTaskState.completedWithError
               err := e })
    ∧ (∀ cs submit brokerIDs (e : String), submit.2 = some e →
      (removeBrokers cs submit brokerIDs).2.isSome = true →
      (removeBrokers cs submit brokerIDs).1.res =
        some { taskID := submit.1.taskID
               startedAt := submit.1.date
               state := CruiseControlTaskState.completedWithError
               err := e })
    ∧ (∀ load submit brokerIDs (e : String), submit.2 = some e →
      (rebalanceDisks load submit brokerIDs).2.isSome = true →
      (rebalanceDisks load submit brokerIDs).1.res =
        some { taskID := submit.1.taskID
               startedAt := submit.1.date
               state := CruiseControlTaskState.completedWithError
               err := e })
    ∧ (∀ resp submit brokerIDs, brokerIDs.length ≠ 0 →
      removeBrokersLoop resp.kafkaBrokerState.replicaCountByBrokerID brokerIDs = Except.ok [] →
      removeBrokers (Except.ok resp) submit brokerIDs =
        ({ res := some { taskID := ""
                         startedAt := ""
                         state := CruiseControlTaskState.completed
                         err := "" }
           err := none }, none))
    ∧ (∀ resp submit brokerIDs, emptyDiskCollect brokerIDs resp.brokers = [] →
      rebalanceDisks (Except.ok resp) submit brokerIDs =
        ({ res := some { taskID := ""
                         startedAt := ""
                         state := CruiseControlTaskState.completed
                         err := "" }
           err := none }, none)) := by
  refine ⟨?_, ?_, ?_, ?_, ?_, ?_, removeBrokers_skip, rebalanceDisks_skip⟩
  · intro load submit brokerIDs r hres hact
    rcases addBrokers_shape load submit brokerIDs with ⟨h1, _, _⟩ | ⟨req, e, hs, heq⟩ | ⟨req, hs, heq⟩
    · rw [h1] at hres
      exact absurd hres (by simp)
    · rw [heq] at hres
      simp only [Option.some.injEq] at hres
      rw [← hres] at hact
      simp at hact
    · rw [heq]
      exact ⟨hs, rfl, rfl⟩
  · intro cs submit brokerIDs r hres hact
    rcases removeBrokers_shape cs submit brokerIDs with ⟨h1, _, _⟩ | heq | ⟨req, e, hs, heq⟩ | ⟨req, hs, heq⟩
    · rw [h1] at hres
      exact absurd hres (by simp)
    · rw [heq] at hres
      simp only [Option.some.injEq] at hres
      rw [← hres] at hact
      simp at hact
    · rw [heq] at hres
      simp only [Option.some.injEq] at hres
      rw [← hres] at hact
      simp at hact
    · rw [heq]
      exact ⟨hs, rfl, rfl⟩
  · intro load submit brokerIDs r hres hact
    rcases rebalanceDisks_shape load submit brokerIDs with ⟨h1, _, _⟩ | heq | ⟨req, e, hs, heq⟩ | ⟨req, hs, heq⟩
    · rw [h1] at hres
      exact absurd hres (by simp)
    · rw [heq] at hres
      simp only [Option.some.injEq] at hres
      rw [← hres] at hact
      simp at hact
    · rw [heq] at hres
      simp only [Option.some.injEq] at hres
      rw [← hres] at hact
      simp at hact
    · rw [heq]
      exact ⟨hs, rfl, rfl⟩
  · intro load submit brokerIDs e hsub hsome
    rcases addBrokers_shape load submit brokerIDs with ⟨_, h2, _⟩ | ⟨req, e0, hs, heq⟩ | ⟨req, hs, heq⟩
    · rw [h2] at hsome
      exact absurd hsome (by simp)
    · rw [hs] at hsub
      simp only [Option.some.injEq] at hsub
      rw [heq, hsub]
    · rw [hs] at hsub
      exact absurd hsub (by simp)
  · intro cs submit brokerIDs e hsub hsome
    rcases removeBrokers_shape cs submit brokerIDs with ⟨_, h2, _⟩ | heq | ⟨req, e0, hs, heq⟩ | ⟨req, hs, heq⟩
    · rw [h2] at hsome
      exact absurd hsome (by simp)
    · rw [heq] at hsome
      exact absurd hsome (by simp)
    · rw [hs] at hsub
      simp only [Option.some.injEq] at hsub
      rw [heq, hsub]
    · rw [hs] at hsub
      exact absurd hsub (by simp)
  · intro load submit brokerIDs e hsub hsome
    rcases rebalanceDisks_shape load submit brokerIDs with ⟨_, h2, _⟩ | heq | ⟨req, e0, hs, heq⟩ | ⟨req, hs, heq⟩
    · rw [h2] at hsome
      exact absurd hsome (by simp)
    · rw [heq] at hsome
      exact absurd hsome (by simp)
    · rw [hs] at hsub
      simp only [Option.some.injEq] at hsub
      rw [heq, hsub]
    · rw [hs] at hsub
      exact absurd hsub (by simp)

/-- C1 witness: removing broker 5 while it reports 0 replicas yields
the Completed TaskResult with empty task identifier and no
submission. -/
theorem c1_task_result_lifecycle_witness :
    removeBrokers (Except.ok
        { kafkaBrokerState := { replicaCountByBrokerID := [("5", 0)]
                                onlineLogDirsByBrokerID := []
                                offlineLogDirsByBrokerID := [] } })
      ({ taskID := "t", date := "d" }, none) ["5"] =
      ({ res := some { taskID := ""
                       startedAt := ""
                       state := CruiseControlTaskState.completed
                       err := "" }
         err := none }, none) :=
  c1_task_result_lifecycle.2.2.2.2.2.2.1
    { kafkaBrokerState := { replicaCountByBrokerID := [("5", 0)]
                            onlineLogDirsByBrokerID := []
                            offlineLogDirsByBrokerID := [] } }
    ({ taskID := "t", date := "d" }, none) ["5"] (by decide) rfl

/-- C1 counterexample input: one alive broker 1. -/
def c1CounterLoad : ClusterLoadResult :=
  { brokers := [{ broker := 1, brokerState := BrokerState.alive, diskState := [] }] }

/-- C1 counterexample: with the submission failing with an error that
renders to the empty string, the returned TaskResult is in state
CompletedWithError but its error description is empty, refuting the
non-empty-description part of the claim as stated. -/
theorem c1_empty_error_description_counterexample :
    (addBrokers (Except.ok c1CounterLoad) ({ taskID := "", date := "" }, some "") ["1"]).1.res =
      some { taskID := ""
             startedAt := ""
             state := CruiseControlTaskState.completedWithError
             err := "" } ∧
    (addBrokers (Except.ok c1CounterLoad) ({ taskID := "", date := "" }, some "") ["1"]).1.err =
      some "" := by
  constructor
  · decide
  · decide

/-- C2: whenever the remote submission call of AddBrokers,
RemoveBrokers or RebalanceDisks returns an error alongside a (possibly
zero-valued) response, the operation still returns a constructed
TaskResult whose TaskID and StartedAt come from that response, with
state CompletedWithError and the error description, while also
returning the error to the caller; the construction is total (resp
ranges over every response, including the zero-valued one). -/
theorem c2_error_result_construction :
    (∀ load brokerIDs (resp : CCResponse) (e : String),
      (addBrokers load (resp, some e) brokerIDs).2.isSome = true →
      (addBrokers load (resp, some e) brokerIDs).1 =
        { res := some { taskID := resp.taskID
                        startedAt := resp.date
                        state := CruiseControlTaskState.completedWithError
                        err := e }
          err := some e })
    ∧ (∀ cs brokerIDs (resp : CCResponse) (e : String),
      (removeBrokers cs (resp, some e) brokerIDs).2.isSome = true →
      (removeBrokers cs (resp, some e) brokerIDs).1 =
        { res := some { taskID := resp.taskID
                        startedAt := resp.date
                        state := CruiseControlTaskState.completedWithError
                        err := e }
          err := some e })
    ∧ (∀ load brokerIDs (resp : CCResponse) (e : String),
      (rebalanceDisks load (resp, some e) brokerIDs).2.isSome = true →
      (rebalanceDisks load (resp, some e) brokerIDs).1 =
        { res := some { taskID := resp.taskID
                        startedAt := resp.date
                        state := CruiseControlTaskState.completedWithError
                        err := e }
          err := some e }) := by
  refine ⟨?_, ?_, ?_⟩
  · intro load brokerIDs resp e hsome
    rcases addBrokers_shape load (resp, some e) brokerIDs with ⟨_, h2, _⟩ | ⟨req, e0, hs, heq⟩ | ⟨req, hs, heq⟩
    · rw [h2] at hsome
      exact absurd hsome (by simp)
    · simp only [Option.some.injEq] at hs
      rw [heq, ← hs]
    · exact absurd hs (by simp)
  · intro cs brokerIDs resp e hsome
    rcases removeBrokers_shape cs (resp, some e) brokerIDs with ⟨_, h2, _⟩ | heq | ⟨req, e0, hs, heq⟩ | ⟨req, hs, heq⟩
    · rw [h2] at hsome
      exact absurd hsome (by simp)
    · rw [heq] at hsome
      exact absurd hsome (by simp)
    · simp only [Option.some.injEq] at hs
      rw [heq, ← hs]
    · exact absurd hs (by simp)
  · intro load brokerIDs resp e hsome
    rcases rebalanceDisks_shape load (resp, some e) brokerIDs with ⟨_, h2, _⟩ | heq | ⟨req, e0, hs, heq⟩ | ⟨req, hs, heq⟩
    · rw [h2] at hsome
      exact absurd hsome (by simp)
    · rw [heq] at hsome
      exact absurd hsome (by simp)
    · simp only [Option.some.injEq] at hs
      rw [heq, ← hs]
    · exact absurd hs (by simp)

/-- C2 witness input: one broker 1 in state New. -/
def c2WitnessLoad : ClusterLoadResult :=
  { brokers := [{ broker := 1, brokerState := BrokerState.new, diskState := [] }] }

/-- C2 witness: a failed add submission with a zero-valued response
still produces a TaskResult with empty TaskID/StartedAt, state
CompletedWithError and the error description, and the error is also
returned. -/
theorem c2_error_result_construction_witness :
    (addBrokers (Except.ok c2WitnessLoad) (({ taskID := "", date := "" } : CCResponse), some "boom") ["1"]).1 =
      { res := some { taskID := ""
                      startedAt := ""
                      state := CruiseControlTaskState.completedWithError
                      err := "boom" }
        err := some "boom" } :=
  c2_error_result_construction.1 (Except.ok c2WitnessLoad) ["1"]
    { taskID := "", date := "" } "boom" (by decide)

/-- C3 (amended): when some requested broker ID is not among the
brokers reported in state Alive or New (the conversion of the requested
IDs and the availability query both succeeding), AddBrokers rejects the
whole operation before any submission, returning the fixed
unavailable-brokers error; the offending IDs are logged but, contrary
to the claim as stated, not named in the returned error (see the
counterexample). -/
theorem c3_add_rejects_unavailable (load : Except String ClusterLoadResult)
    (submit : CCResponse × Option String) (brokerIDs : List String)
    (conv : List Int) (avail : List String) (id : String)
    (hconv : brokerIDsFromStringSlice brokerIDs = Except.ok conv)
    (havail : brokersWithState load addableStates = Except.ok avail)
    (hid : id ∈ brokerIDs) (hnot : id ∉ avail) :
    addBrokers load submit brokerIDs = ({ res := none, err := some addUnavailableMsg }, none) := by
  have hlen : ¬ brokerIDs.length = 0 := by
    intro h
    rw [List.length_eq_zero] at h
    subst h
    simp at hid
  have hmem : id ∈ brokerIDs.filter (fun i => decide (i ∉ avail)) :=
    List.mem_filter.mpr ⟨hid, by simpa using hnot⟩
  have hpos : 0 < (brokerIDs.filter (fun i => decide (i ∉ avail))).length :=
    List.length_pos.mpr (List.ne_nil_of_mem hmem)
  simp only [addBrokers, if_neg hlen, hconv, havail, if_pos hpos]

/-- C3 witness input: broker 4 reported Dead. -/
def c3WitnessLoad : ClusterLoadResult :=
  { brokers := [{ broker := 4, brokerState := BrokerState.dead, diskState := [] }] }

/-- C3 witness: adding broker 4 while it is reported Dead is rejected
with the unavailable-brokers error and no submission. -/
theorem c3_add_rejects_unavailable_witness :
    addBrokers (Except.ok c3WitnessLoad) ({ taskID := "", date := "" }, none) ["4"] =
      ({ res := none, err := some addUnavailableMsg }, none) :=
  c3_add_rejects_unavailable (Except.ok c3WitnessLoad) ({ taskID := "", date := "" }, none)
    ["4"] [4] [] "4" rfl rfl (by decide) (by decide)

/-- C3 counterexample input: broker 3 reported Dead. -/
def c3CounterLoad : ClusterLoadResult :=
  { brokers := [{ broker := 3, brokerState := BrokerState.dead, diskState := [] }] }

/-- C3 counterexample: AddBrokers of broker 3 while it is Dead is
rejected with no submission, but the returned error message does not
contain the offending ID 3 anywhere, refuting the claim that the error
lists the offending broker IDs. -/
theorem c3_error_does_not_name_ids_counterexample :
    (addBrokers (Except.ok c3CounterLoad) ({ taskID := "", date := "" }, none) ["3"]).1.err =
      some addUnavailableMsg ∧
    (addBrokers (Except.ok c3CounterLoad) ({ taskID := "", date := "" }, none) ["3"]).2 = none ∧
    hasSubstring "3".data addUnavailableMsg.data = false := by
  refine ⟨by decide, by decide, by decide⟩

/-- Eligibility test of the RemoveBrokers filtering loop. -/
def eligibleRemove (m : List (String × Nat)) (id : String) : Bool :=
  match mapLookup m id with
  | none => false
  | some replicas => !(decide (replicas ≤ 0))

/-- Value extracted from a successful goAtoi conversion. -/
def parsedVal (id : String) : Int :=
  match goAtoi id with
  | Except.ok v => v
  | Except.error _ => 0

theorem removeBrokersLoop_eq (m : List (String × Nat)) (ids : List String)
    (h : ∀ id ∈ ids, eligibleRemove m id = true → ∃ v, goAtoi id = Except.ok v) :
    removeBrokersLoop m ids =
      Except.ok ((ids.filter (eligibleRemove m)).map (fun id => toInt32 (parsedVal id))) := by
  induction ids with
  | nil => rfl
  | cons id rest ih =>
    have hrest := ih (fun i hi he => h i (List.mem_cons_of_mem _ hi) he)
    simp only [removeBrokersLoop]
    rcases hl : mapLookup m id with _ | replicas
    · have hel : eligibleRemove m id = false := by simp [eligibleRemove, hl]
      simp only [hl, hrest, List.filter_cons, hel]
      simp
    · by_cases hz : replicas ≤ 0
      · have hel : eligibleRemove m id = false := by simp [eligibleRemove, hl, hz]
        simp only [hl, if_pos hz, hrest, List.filter_cons, hel]
        simp
      · have hel : eligibleRemove m id = true := by simp [eligibleRemove, hl, hz]
        obtain ⟨v, hv⟩ := h id (List.mem_cons_self _ _) hel
        have hp : parsedVal id = v := by simp [parsedVal, hv]
        simp only [hl, if_neg hz, hv, hrest, List.filter_cons, hel]
        simp [hp]

/-- RemoveBrokers submission content when the eligible set is
non-empty. -/
theorem removeBrokers_submit (resp : ClusterStateResult)
    (submit : CCResponse × Option String) (brokerIDs : List String)
    (lst : List Int)
    (hlen : brokerIDs.length ≠ 0)
    (hloop : removeBrokersLoop resp.kafkaBrokerState.replicaCountByBrokerID brokerIDs =
      Except.ok lst)
    (hne : lst ≠ []) :
    (removeBrokers (Except.ok resp) submit brokerIDs).2 =
      some { allowCapacityEstimation := true
             brokerIDs := lst
             dataFrom := ProposalDataSource.validWindows
             useReadyDefaultGoals := true } := by
  have hz : ¬ lst.length = 0 := fun h => hne (List.length_eq_zero.mp h)
  simp only [removeBrokers, if_neg hlen, hloop, if_neg hz]
  rcases hsub : submit.2 with _ | e <;> simp only [hsub]

/-! ## Claim theorems: remove filtering, disk rebalance -/

/-- C5 (amended): for a non-empty RemoveBrokers input whose eligible IDs
all parse (strconv.Atoi succeeds), requested brokers with unknown or
zero replica count are excluded without error; an empty eligible set
short-circuits to a Completed Result with empty task identifier and no
submission; otherwise exactly one remove request is submitted whose
broker list holds, in order, the int32 reductions of the numeric IDs of
the eligible brokers (equal to the IDs themselves whenever they fit in
the int32 range; the original claim fails for an ID beyond that range,
see the counterexample). -/
theorem c5_remove_filtering (resp : ClusterStateResult)
    (submit : CCResponse × Option String) (brokerIDs : List String)
    (hne : brokerIDs.length ≠ 0)
    (hconv : ∀ id ∈ brokerIDs,
      eligibleRemove resp.kafkaBrokerState.replicaCountByBrokerID id = true →
      ∃ v, goAtoi id = Except.ok v) :
    (brokerIDs.filter (eligibleRemove resp.kafkaBrokerState.replicaCountByBrokerID) = [] →
      removeBrokers (Except.ok resp) submit brokerIDs =
        ({ res := some { taskID := ""
                         startedAt := ""
                         state := CruiseControlTaskState.completed
                         err := "" }
           err := none }, none))
    ∧ (brokerIDs.filter (eligibleRemove resp.kafkaBrokerState.replicaCountByBrokerID) ≠ [] →
      (removeBrokers (Except.ok resp) submit brokerIDs).2 =
        some { allowCapacityEstimation := true
               brokerIDs :=
                 (brokerIDs.filter
                   (eligibleRemove resp.kafkaBrokerState.replicaCountByBrokerID)).map
                   (fun id => toInt32 (parsedVal id))
               dataFrom := ProposalDataSource.validWindows
               useReadyDefaultGoals := true }) := by
  have hloop := removeBrokersLoop_eq resp.kafkaBrokerState.replicaCountByBrokerID brokerIDs hconv
  constructor
  · intro hfil
    refine removeBrokers_skip resp submit brokerIDs hne ?_
    rw [hloop, hfil]
    rfl
  · intro hfil
    refine removeBrokers_submit resp submit brokerIDs _ hne hloop ?_
    intro h
    rcases List.map_eq_nil_iff.mp h with h2
    exact hfil h2

/-- C5 witness input: broker 5 reports 3 replicas. -/
def c5WitnessState : ClusterStateResult :=
  { kafkaBrokerState := { replicaCountByBrokerID := [("5", 3)]
                          onlineLogDirsByBrokerID := []
                          offlineLogDirsByBrokerID := [] } }

/-- C5 witness: removing broker 5 with 3 replicas submits exactly one
remove request for the ID 5. -/
theorem c5_remove_filtering_witness :
    (removeBrokers (Except.ok c5WitnessState) ({ taskID := "t", date := "d" }, none) ["5"]).2 =
      some { allowCapacityEstimation := true
             brokerIDs := [5]
             dataFrom := ProposalDataSource.validWindows
             useReadyDefaultGoals := true } := by
  have h := (c5_remove_filtering c5WitnessState ({ taskID := "t", date := "d" }, none) ["5"]
    (by decide)
    (fun id hid _ => by
      have hid5 : id = "5" := by simpa using hid
      subst hid5
      exact ⟨5, rfl⟩)).2 (by decide)
  exact h.trans (by decide)

/-- C5 counterexample input: an eligible broker whose decimal ID
4294967297 exceeds the int32 range. -/
def c5CounterState : ClusterStateResult :=
  { kafkaBrokerState := { replicaCountByBrokerID := [("4294967297", 3)]
                          onlineLogDirsByBrokerID := []
                          offlineLogDirsByBrokerID := [] } }

/-- C5 counterexample: the eligible broker ID 4294967297 is submitted
as its int32 reduction 1, so the submission does not contain exactly the
numeric IDs of the eligible brokers. -/
theorem c5_int32_truncation_counterexample :
    ((removeBrokers (Except.ok c5CounterState) ({ taskID := "t", date := "d" }, none)
        ["4294967297"]).2).map RemoveBrokerRequest.brokerIDs = some [1] ∧
    ([1] : List Int) ≠ [4294967297] := by
  refine ⟨by decide, by decide⟩

theorem mem_qualifyingDiskIDs (b : Int) (ds : List DiskStateInfo) (x : Int) :
    x ∈ qualifyingDiskIDs b ds ↔
      x = b ∧ ∃ d ∈ ds, d.numReplicas = 0 ∧ d.diskMB.dead = false := by
  induction ds with
  | nil => simp [qualifyingDiskIDs]
  | cons d rest ih =>
    simp only [qualifyingDiskIDs]
    by_cases hq : d.numReplicas ≤ 0 ∧ !d.diskMB.dead
    · have hd : d.numReplicas = 0 ∧ d.diskMB.dead = false := by
        obtain ⟨h1, h2⟩ := hq
        exact ⟨Nat.le_zero.mp h1, by simpa using h2⟩
      rw [if_pos hq]
      simp only [List.mem_cons, ih]
      constructor
      · rintro (rfl | ⟨rfl, d', hd', hq'⟩)
        · exact ⟨rfl, d, Or.inl rfl, hd⟩
        · exact ⟨rfl, d', Or.inr hd', hq'⟩
      · rintro ⟨rfl, d', hd', hq'⟩
        exact Or.inl rfl
    · have hd : ¬ (d.numReplicas = 0 ∧ d.diskMB.dead = false) := by
        rintro ⟨h1, h2⟩
        exact hq ⟨Nat.le_zero.mpr h1, by simp [h2]⟩
      rw [if_neg hq, ih]
      constructor
      · rintro ⟨rfl, d', hd', hq'⟩
        exact ⟨rfl, d', List.mem_cons_of_mem _ hd', hq'⟩
      · rintro ⟨rfl, d', hd', hq'⟩
        rcases List.mem_cons.mp hd' with rfl | hmem
        · exact absurd hq' hd
        · exact ⟨rfl, d', hmem, hq'⟩

/-- RebalanceDisks submission content when some requested broker has an
empty non-dead disk. -/
theorem rebalanceDisks_submit (resp : ClusterLoadResult)
    (submit : CCResponse × Option String) (brokerIDs : List String)
    (hne : emptyDiskCollect brokerIDs resp.brokers ≠ []) :
    (rebalanceDisks (Except.ok resp) submit brokerIDs).2 =
      some { allowCapacityEstimation := true
             destinationBrokerIDs := emptyDiskCollect brokerIDs resp.brokers
             dataFrom := ProposalDataSource.validWindows
             useReadyDefaultGoals := true
             excludeRecentlyRemovedBrokers := true } := by
  have hz : ¬ (emptyDiskCollect brokerIDs resp.brokers).length = 0 :=
    fun h => hne (List.length_eq_zero.mp h)
  simp only [rebalanceDisks, if_neg hz]
  rcases hsub : submit.2 with _ | e <;> simp only [hsub]

theorem mem_emptyDiskCollect (requested : List String) (l : List BrokerStat) (b : Int) :
    b ∈ emptyDiskCollect requested l ↔
      ∃ bs ∈ l, bs.broker = b ∧ toString bs.broker ∈ requested ∧
        ∃ d ∈ bs.diskState, d.numReplicas = 0 ∧ d.diskMB.dead = false := by
  induction l with
  | nil => simp [emptyDiskCollect]
  | cons bs rest ih =>
    simp only [emptyDiskCollect]
    by_cases hr : toString bs.broker ∈ requested
    · rw [if_pos hr]
      simp only [List.mem_append, mem_qualifyingDiskIDs, ih, List.mem_cons]
      constructor
      · rintro (⟨rfl, hd⟩ | ⟨bs', hbs', hrest⟩)
        · exact ⟨bs, Or.inl rfl, rfl, hr, hd⟩
        · exact ⟨bs', Or.inr hbs', hrest⟩
      · rintro ⟨bs', hbs', hb, hreq, hd⟩
        rcases hbs' with rfl | hmem
        · exact Or.inl ⟨hb.symm, hd⟩
        · exact Or.inr ⟨bs', hmem, hb, hreq, hd⟩
    · rw [if_neg hr, ih]
      constructor
      · rintro ⟨bs', hbs', hrest⟩
        exact ⟨bs', List.mem_cons_of_mem _ hbs', hrest⟩
      · rintro ⟨bs', hbs', hb, hreq, hd⟩
        rcases List.mem_cons.mp hbs' with rfl | hmem
        · exact absurd hreq hr
        · exact ⟨bs', hmem, hb, hreq, hd⟩

/-- C6: a requested broker contributes to the rebalance destination
list exactly when one of its disks holds zero replicas and is not
marked dead; when no requested broker has such a disk the operation
returns a Completed Result and performs no submission; otherwise it
submits exactly one rebalance request targeting the brokers with
qualifying disks, with the exclude-recently-removed-brokers flag set
true. -/
theorem c6_disk_qualification :
    (∀ (requested : List String) (l : List BrokerStat) (b : Int),
      b ∈ emptyDiskCollect requested l ↔
        ∃ bs ∈ l, bs.broker = b ∧ toString bs.broker ∈ requested ∧
          ∃ d ∈ bs.diskState, d.numReplicas = 0 ∧ d.diskMB.dead = false)
    ∧ (∀ (resp : ClusterLoadResult) (submit : CCResponse × Option String)
        (brokerIDs : List String), emptyDiskCollect brokerIDs resp.brokers = [] →
      rebalanceDisks (Except.ok resp) submit brokerIDs =
        ({ res := some { taskID := ""
                         startedAt := ""
                         state := CruiseControlTaskState.completed
                         err := "" }
           err := none }, none))
    ∧ (∀ (resp : ClusterLoadResult) (submit : CCResponse × Option String)
        (brokerIDs : List String), emptyDiskCollect brokerIDs resp.brokers ≠ [] →
      (rebalanceDisks (Except.ok resp) submit brokerIDs).2 =
        some { allowCapacityEstimation := true
               destinationBrokerIDs := emptyDiskCollect brokerIDs resp.brokers
               dataFrom := ProposalDataSource.validWindows
               useReadyDefaultGoals := true
               excludeRecentlyRemovedBrokers := true }) := by
  exact ⟨mem_emptyDiskCollect, rebalanceDisks_skip, rebalanceDisks_submit⟩

/-- C6 witness inputs: broker 2 with one empty, non-dead disk. -/
def c6WitnessDisk : DiskStateInfo := { numReplicas := 0, diskMB := { dead := false } }

def c6WitnessLoad : ClusterLoadResult :=
  { brokers := [{ broker := 2, brokerState := BrokerState.alive, diskState := [c6WitnessDisk] }] }

/-- C6 witness: rebalancing broker 2 whose only disk is empty and not
dead submits one rebalance request targeting broker 2 with the
exclude-recently-removed flag set. -/
theorem c6_disk_qualification_witness :
    (rebalanceDisks (Except.ok c6WitnessLoad) ({ taskID := "t", date := "d" }, none) ["2"]).2 =
      some { allowCapacityEstimation := true
             destinationBrokerIDs := [2]
             dataFrom := ProposalDataSource.validWindows
             useReadyDefaultGoals := true
             excludeRecentlyRemovedBrokers := true } := by
  have h := c6_disk_qualification.2.2 c6WitnessLoad ({ taskID := "t", date := "d" }, none)
    ["2"] (by decide)
  exact h.trans (by decide)

/-- Boolean form of the disk qualification test of RebalanceDisks. -/
def diskQualifies (d : DiskStateInfo) : Bool :=
  decide (d.numReplicas ≤ 0 ∧ !d.diskMB.dead)

theorem count_qualifyingDiskIDs (b : Int) (ds : List DiskStateInfo) :
    (qualifyingDiskIDs b ds).count b = (ds.filter diskQualifies).length := by
  induction ds with
  | nil => rfl
  | cons d rest ih =>
    simp only [qualifyingDiskIDs, List.filter_cons]
    cases hb : diskQualifies d with
    | true =>
      rw [if_pos (of_decide_eq_true hb)]
      simp [List.count_cons, ih]
    | false =>
      rw [if_neg (of_decide_eq_false hb)]
      simp [ih]

theorem emptyDiskCollect_append (requested : List String) (l1 l2 : List BrokerStat) :
    emptyDiskCollect requested (l1 ++ l2) =
      emptyDiskCollect requested l1 ++ emptyDiskCollect requested l2 := by
  induction l1 with
  | nil => rfl
  | cons bs rest ih =>
    by_cases hr : toString bs.broker ∈ requested <;>
      simp [emptyDiskCollect, hr, ih]

theorem count_emptyDiskCollect_zero (requested : List String) (l : List BrokerStat)
    (b : Int) (h : ∀ c ∈ l, c.broker ≠ b) :
    (emptyDiskCollect requested l).count b = 0 := by
  rw [List.count_eq_zero]
  intro hmem
  rw [mem_emptyDiskCollect] at hmem
  obtain ⟨bs, hbs, hb, _⟩ := hmem
  exact h bs hbs hb

/-- C10: a requested broker with n qualifying disks (zero replicas,
not dead), whose numeric ID no other load entry shares, appears n times
in the submitted destination-broker list when n exceeds one — one copy
per qualifying disk, duplicates not removed. -/
theorem c10_duplicate_destination_ids (brokerIDs : List String) (l1 l2 : List BrokerStat)
    (bs : BrokerStat) (submit : CCResponse × Option String) (n : Nat)
    (hn : n = (bs.diskState.filter diskQualifies).length)
    (hreq : toString bs.broker ∈ brokerIDs)
    (hothers : ∀ c ∈ l1 ++ l2, c.broker ≠ bs.broker)
    (hgt : 1 < n) :
    ∃ req, (rebalanceDisks (Except.ok { brokers := l1 ++ bs :: l2 }) submit brokerIDs).2 =
        some req ∧
      req.destinationBrokerIDs.count bs.broker = n := by
  have h1 : ∀ c ∈ l1, c.broker ≠ bs.broker :=
    fun c hc => hothers c (List.mem_append_left _ hc)
  have h2 : ∀ c ∈ l2, c.broker ≠ bs.broker :=
    fun c hc => hothers c (List.mem_append_right _ hc)
  have hcount : (emptyDiskCollect brokerIDs (l1 ++ bs :: l2)).count bs.broker = n := by
    rw [emptyDiskCollect_append, List.count_append,
      count_emptyDiskCollect_zero brokerIDs l1 bs.broker h1]
    have hmid : emptyDiskCollect brokerIDs (bs :: l2) =
        qualifyingDiskIDs bs.broker bs.diskState ++ emptyDiskCollect brokerIDs l2 := by
      simp [emptyDiskCollect, hreq]
    rw [hmid, List.count_append, count_qualifyingDiskIDs,
      count_emptyDiskCollect_zero brokerIDs l2 bs.broker h2, hn]
    omega
  have hne : emptyDiskCollect brokerIDs (l1 ++ bs :: l2) ≠ [] := by
    intro hnil
    rw [hnil] at hcount
    simp at hcount
    omega
  refine ⟨_, rebalanceDisks_submit { brokers := l1 ++ bs :: l2 } submit brokerIDs hne, ?_⟩
  exact hcount

/-- C10 witness inputs: broker 7 with two empty non-dead disks. -/
def c10WitnessDisk : DiskStateInfo := { numReplicas := 0, diskMB := { dead := false } }

def c10WitnessStat : BrokerStat :=
  { broker := 7, brokerState := BrokerState.alive, diskState := [c10WitnessDisk, c10WitnessDisk] }

/-- C10 witness: rebalancing broker 7 with two qualifying disks
submits a destination list containing the ID 7 twice. -/
theorem c10_duplicate_destination_ids_witness :
    ((rebalanceDisks (Except.ok { brokers := [c10WitnessStat] })
        ({ taskID := "t", date := "d" }, none) ["7"]).2).map
      (fun req => req.destinationBrokerIDs.count 7) = some 2 := by
  obtain ⟨req, hq, hc⟩ := c10_duplicate_destination_ids ["7"] [] [] c10WitnessStat
    ({ taskID := "t", date := "d" }, none) 2 (by decide) (by decide) (by simp) (by decide)
  show ((rebalanceDisks (Except.ok { brokers := [] ++ c10WitnessStat :: [] })
        ({ taskID := "t", date := "d" }, none) ["7"]).2).map
      (fun req => req.destinationBrokerIDs.count 7) = some 2
  rw [hq]
  simpa using hc

/-! ## Claim theorems: log directory buckets -/

theorem mapLookup_mapInsert {A : Type} (m : List (String × A)) (k key : String) (v : A) :
    mapLookup (mapInsert m k v) key = if k = key then some v else mapLookup m key := by
  induction m with
  | nil =>
    by_cases hk : k = key <;> simp [mapInsert, mapLookup, hk]
  | cons p rest ih =>
    obtain ⟨pk, pv⟩ := p
    by_cases hpk : pk = k
    · subst hpk
      by_cases hk : pk = key <;> simp [mapInsert, mapLookup, hk]
    · by_cases hk2 : pk = key
      · subst hk2
        have hne : k ≠ pk := fun h => hpk h.symm
        simp [mapInsert, mapLookup, hpk, hne]
      · simp [mapInsert, mapLookup, hpk, hk2, ih]

theorem lookup_setOnlineDirs (m : List (String × LogDirBuckets)) (k key : String)
    (dirs : List String) :
    mapLookup (setOnlineDirs m k dirs) key =
      if k = key then
        some { (mapLookup m k).getD emptyBuckets with online := dirs }
      else mapLookup m key := by
  unfold setOnlineDirs
  rw [mapLookup_mapInsert]

theorem lookup_setOfflineDirs (m : List (String × LogDirBuckets)) (k key : String)
    (dirs : List String) :
    mapLookup (setOfflineDirs m k dirs) key =
      if k = key then
        some { (mapLookup m k).getD emptyBuckets with offline := dirs }
      else mapLookup m key := by
  unfold setOfflineDirs
  rw [mapLookup_mapInsert]

section LogDirFold

theorem foldl_lookup_not_mem
    (step : List (String × LogDirBuckets) → String × List String → List (String × LogDirBuckets))
    (u : LogDirBuckets → List String → LogDirBuckets)
    (hstep : ∀ m p key, mapLookup (step m p) key =
      if p.1 = key then some (u ((mapLookup m p.1).getD emptyBuckets) p.2)
      else mapLookup m key)
    (l : List (String × List String)) (m : List (String × LogDirBuckets)) (key : String)
    (h : key ∉ l.map Prod.fst) :
    mapLookup (l.foldl step m) key = mapLookup m key := by
  induction l generalizing m with
  | nil => rfl
  | cons p rest ih =>
    simp only [List.map_cons, List.mem_cons] at h
    push_neg at h
    simp only [List.foldl_cons]
    rw [ih _ h.2, hstep]
    rw [if_neg (fun hh => h.1 hh.symm)]

theorem foldl_lookup_isSome_pres
    (step : List (String × LogDirBuckets) → String × List String → List (String × LogDirBuckets))
    (u : LogDirBuckets → List String → LogDirBuckets)
    (hstep : ∀ m p key, mapLookup (step m p) key =
      if p.1 = key then some (u ((mapLookup m p.1).getD emptyBuckets) p.2)
      else mapLookup m key)
    (l : List (String × List String)) (m : List (String × LogDirBuckets)) (key : String)
    (h : (mapLookup m key).isSome = true) :
    (mapLookup (l.foldl step m) key).isSome = true := by
  induction l generalizing m with
  | nil => exact h
  | cons p rest ih =>
    simp only [List.foldl_cons]
    apply ih
    rw [hstep]
    by_cases hp : p.1 = key
    · simp [hp]
    · simp [hp, h]

theorem foldl_lookup_mem_isSome
    (step : List (String × LogDirBuckets) → String × List String → List (String × LogDirBuckets))
    (u : LogDirBuckets → List String → LogDirBuckets)
    (hstep : ∀ m p key, mapLookup (step m p) key =
      if p.1 = key then some (u ((mapLookup m p.1).getD emptyBuckets) p.2)
      else mapLookup m key)
    (l : List (String × List String)) (m : List (String × LogDirBuckets)) (key : String)
    (h : key ∈ l.map Prod.fst) :
    (mapLookup (l.foldl step m) key).isSome = true := by
  induction l generalizing m with
  | nil => simp at h
  | cons p rest ih =>
    simp only [List.foldl_cons]
    by_cases hp : p.1 = key
    · apply foldl_lookup_isSome_pres step u hstep
      rw [hstep, if_pos hp]
      rfl
    · apply ih
      simp only [List.map_cons, List.mem_cons] at h
      rcases h with h | h
      · exact absurd h.symm hp
      · exact h

theorem foldl_lookup_proj_pres
    (step : List (String × LogDirBuckets) → String × List String → List (String × LogDirBuckets))
    (u : LogDirBuckets → List String → LogDirBuckets)
    (hstep : ∀ m p key, mapLookup (step m p) key =
      if p.1 = key then some (u ((mapLookup m p.1).getD emptyBuckets) p.2)
      else mapLookup m key)
    (proj : LogDirBuckets → List String)
    (hproj : ∀ cur dirs, proj (u cur dirs) = proj cur)
    (l : List (String × List String)) (m : List (String × LogDirBuckets)) (key : String) :
    proj ((mapLookup (l.foldl step m) key).getD emptyBuckets) =
      proj ((mapLookup m key).getD emptyBuckets) := by
  induction l generalizing m with
  | nil => rfl
  | cons p rest ih =>
    simp only [List.foldl_cons]
    rw [ih, hstep]
    by_cases hp : p.1 = key
    · rw [if_pos hp]
      simp only [Option.getD_some]
      rw [hproj, hp]
    · rw [if_neg hp]

end LogDirFold

theorem setOnlineDirs_step (m : List (String × LogDirBuckets)) (p : String × List String)
    (key : String) :
    mapLookup ((fun m (p : String × List String) => setOnlineDirs m p.1 p.2) m p) key =
      if p.1 = key then
        some ((fun cur dirs => { cur with online := dirs })
          ((mapLookup m p.1).getD emptyBuckets) p.2)
      else mapLookup m key :=
  lookup_setOnlineDirs m p.1 key p.2

theorem setOfflineDirs_step (m : List (String × LogDirBuckets)) (p : String × List String)
    (key : String) :
    mapLookup ((fun m (p : String × List String) => setOfflineDirs m p.1 p.2) m p) key =
      if p.1 = key then
        some ((fun cur dirs => { cur with offline := dirs })
          ((mapLookup m p.1).getD emptyBuckets) p.2)
      else mapLookup m key :=
  lookup_setOfflineDirs m p.1 key p.2

/-- C9: every broker present in the online or the offline
log-directory report appears in the mapping built by LogDirsByBroker,
whose per-broker value always carries both an online and an offline
bucket; a broker missing from one report gets an initialised empty list
for that state, never an absent bucket. -/
theorem c9_log_dir_buckets (resp : ClusterStateResult) (k : String)
    (h : k ∈ resp.kafkaBrokerState.onlineLogDirsByBrokerID.map Prod.fst ∨
         k ∈ resp.kafkaBrokerState.offlineLogDirsByBrokerID.map Prod.fst) :
    ∃ b, logDirsByBroker (Except.ok resp) =
        Except.ok (buildLogDirs resp.kafkaBrokerState.onlineLogDirsByBrokerID
          resp.kafkaBrokerState.offlineLogDirsByBrokerID) ∧
      mapLookup (buildLogDirs resp.kafkaBrokerState.onlineLogDirsByBrokerID
        resp.kafkaBrokerState.offlineLogDirsByBrokerID) k = some b ∧
      (k ∉ resp.kafkaBrokerState.onlineLogDirsByBrokerID.map Prod.fst → b.online = []) ∧
      (k ∉ resp.kafkaBrokerState.offlineLogDirsByBrokerID.map Prod.fst → b.offline = []) := by
  have hsome : (mapLookup (buildLogDirs resp.kafkaBrokerState.onlineLogDirsByBrokerID
      resp.kafkaBrokerState.offlineLogDirsByBrokerID) k).isSome = true := by
    simp only [buildLogDirs]
    rcases h with hon | hoff
    · exact foldl_lookup_isSome_pres (fun m p => setOfflineDirs m p.1 p.2) (fun cur dirs => { cur with offline := dirs }) setOfflineDirs_step _ _ _
        (foldl_lookup_mem_isSome (fun m p => setOnlineDirs m p.1 p.2) (fun cur dirs => { cur with online := dirs }) setOnlineDirs_step _ _ _ hon)
    · exact foldl_lookup_mem_isSome (fun m p => setOfflineDirs m p.1 p.2) (fun cur dirs => { cur with offline := dirs }) setOfflineDirs_step _ _ _ hoff
  obtain ⟨b, hb⟩ := Option.isSome_iff_exists.mp hsome
  refine ⟨b, rfl, hb, ?_, ?_⟩
  · intro hnot
    have hpres := foldl_lookup_proj_pres (fun m p => setOfflineDirs m p.1 p.2) (fun cur dirs => { cur with offline := dirs }) setOfflineDirs_step (fun x => x.online)
      (fun cur dirs => rfl) resp.kafkaBrokerState.offlineLogDirsByBrokerID
      (resp.kafkaBrokerState.onlineLogDirsByBrokerID.foldl
        (fun m p => setOnlineDirs m p.1 p.2) []) k
    have hstep1 : mapLookup (resp.kafkaBrokerState.onlineLogDirsByBrokerID.foldl
        (fun m p => setOnlineDirs m p.1 p.2) []) k = mapLookup [] k :=
      foldl_lookup_not_mem (fun m p => setOnlineDirs m p.1 p.2) (fun cur dirs => { cur with online := dirs }) setOnlineDirs_step _ _ _ hnot
    rw [show buildLogDirs resp.kafkaBrokerState.onlineLogDirsByBrokerID
        resp.kafkaBrokerState.offlineLogDirsByBrokerID =
        resp.kafkaBrokerState.offlineLogDirsByBrokerID.foldl
          (fun m p => setOfflineDirs m p.1 p.2)
          (resp.kafkaBrokerState.onlineLogDirsByBrokerID.foldl
            (fun m p => setOnlineDirs m p.1 p.2) []) from rfl] at hb
    rw [hb] at hpres
    rw [hstep1] at hpres
    simpa using hpres
  · intro hnot
    have hlk : mapLookup (buildLogDirs resp.kafkaBrokerState.onlineLogDirsByBrokerID
        resp.kafkaBrokerState.offlineLogDirsByBrokerID) k =
        mapLookup (resp.kafkaBrokerState.onlineLogDirsByBrokerID.foldl
          (fun m p => setOnlineDirs m p.1 p.2) []) k := by
      simp only [buildLogDirs]
      exact foldl_lookup_not_mem (fun m p => setOfflineDirs m p.1 p.2) (fun cur dirs => { cur with offline := dirs }) setOfflineDirs_step _ _ _ hnot
    have hpres := foldl_lookup_proj_pres (fun m p => setOnlineDirs m p.1 p.2) (fun cur dirs => { cur with online := dirs }) setOnlineDirs_step (fun x => x.offline)
      (fun cur dirs => rfl) resp.kafkaBrokerState.onlineLogDirsByBrokerID [] k
    rw [← hlk, hb] at hpres
    simpa using hpres

/-- C9 witness input: broker 1 appears only in the offline report. -/
def c9WitnessState : ClusterStateResult :=
  { kafkaBrokerState := { replicaCountByBrokerID := []
                          onlineLogDirsByBrokerID := []
                          offlineLogDirsByBrokerID := [("1", ["d1"])] } }

/-- C9 witness. -/
theorem c9_log_dir_buckets_witness :
    (mapLookup (buildLogDirs c9WitnessState.kafkaBrokerState.onlineLogDirsByBrokerID
        c9WitnessState.kafkaBrokerState.offlineLogDirsByBrokerID) "1").map
      (fun b => b.online) = some [] := by
  obtain ⟨b, _, hb, hon, _⟩ := c9_log_dir_buckets c9WitnessState "1" (Or.inr (by decide))
  rw [hb]
  simp [hon (by decide)]

end Scale
